import Mathlib

/-!
Verification development for the PTO bot (`src/app.py`): a Slack app that
creates Google Calendar events from PTO submissions, posts a confirmation
message, records a message↔event link in a SQLite table (`pto_links`), maps
channels to calendars (`channel_settings`), and reconciles deletions.

The Python code is shallowly embedded: Python strings are Lean `String`s,
`datetime.fromisoformat` / `date` arithmetic are modelled explicitly, the
SQLite tables become association lists keyed exactly as the tables are
(primary keys `slack_ts` and `channel_id`), and the Slack/Google side effects
of a handler become an explicit list of `Effect`s plus the new database state.
External outcomes (calendar insert success, display-name lookup, the ts Slack
assigns to the posted message, delete-call success) are parameters.
-/

set_option autoImplicit false

namespace PTO

/-! ### Python string primitives -/

/-- Value of a decimal digit character, if it is one. -/
def digitVal? (c : Char) : Option Nat :=
  if c.isDigit then some (c.toNat - 48) else none

/-- Accumulate decimal digits; fails on any non-digit. -/
def digitsAux : List Char → Nat → Option Nat
  | [], acc => some acc
  | c :: cs, acc =>
    match digitVal? c with
    | some d => digitsAux cs (10 * acc + d)
    | none => none

/-- Value of a nonempty all-digit character list. -/
def digitsVal? : List Char → Option Nat
  | [] => none
  | c :: cs => digitsAux (c :: cs) 0

/-- Python `str.strip()`: drop leading and trailing whitespace.
(Defined by structural recursion over the character list so that concrete
inputs evaluate by kernel reduction.) -/
def pyStrip (s : String) : String :=
  ⟨((s.data.dropWhile Char.isWhitespace).reverse.dropWhile Char.isWhitespace).reverse⟩

/-- Python `int(s)`: optional surrounding whitespace, optional sign, digits;
anything else raises (modelled as `none`). -/
def pyInt? (s : String) : Option Int :=
  match (pyStrip s).data with
  | '-' :: rest => (digitsVal? rest).map (fun n => -(n : Int))
  | '+' :: rest => (digitsVal? rest).map (fun n => (n : Int))
  | cs => (digitsVal? cs).map (fun n => (n : Int))

/-- Python string `<`: lexicographic comparison on code points. -/
def charListLt : List Char → List Char → Bool
  | [], [] => false
  | [], _ :: _ => true
  | _ :: _, [] => false
  | a :: as, b :: bs =>
    if a.toNat < b.toNat then true
    else if b.toNat < a.toNat then false
    else charListLt as bs

/-- Python `a < b` on strings. -/
def pyStrLt (a b : String) : Bool := charListLt a.data b.data

/-- Python `a or b` where `a` is an optional string: returns `a` when it is a
truthy (nonempty) string, otherwise `b`. -/
def pyOr (a : Option String) (b : String) : String :=
  match a with
  | some s => if s = "" then b else s
  | none => b

/-- Truthiness filter on an optional string: `some s` survives only when
`s` is nonempty (Python treats `None` and `""` alike as falsy). -/
def truthy? (s : Option String) : Option String :=
  match s with
  | some t => if t = "" then none else some t
  | none => none

/-! ### Dates and datetimes (`datetime` module fragment used by the app) -/

/-- A calendar date (`datetime.date`). -/
structure Date where
  year : Nat
  month : Nat
  day : Nat
deriving DecidableEq

/-- A naive datetime (`datetime.datetime`, no tzinfo, no microseconds —
the app never builds either). -/
structure DateTime where
  year : Nat
  month : Nat
  day : Nat
  hour : Nat
  minute : Nat
  second : Nat
deriving DecidableEq

/-- `datetime.date()`: drop the time-of-day part. -/
def DateTime.date (dt : DateTime) : Date := ⟨dt.year, dt.month, dt.day⟩

/-- Gregorian leap-year rule. -/
def isLeap (y : Nat) : Bool := (y % 4 == 0 && y % 100 != 0) || y % 400 == 0

/-- Days in a month of the Gregorian calendar. -/
def daysInMonth (y m : Nat) : Nat :=
  if m = 2 then (if isLeap y then 29 else 28)
  else if m = 4 ∨ m = 6 ∨ m = 9 ∨ m = 11 then 30
  else 31

/-- `d + timedelta(days=1)` on a valid date. -/
def Date.nextDay (d : Date) : Date :=
  if d.day < daysInMonth d.year d.month then ⟨d.year, d.month, d.day + 1⟩
  else if d.month < 12 then ⟨d.year, d.month + 1, 1⟩
  else ⟨d.year + 1, 1, 1⟩

/-- Zero-pad to two digits. -/
def pad2 (n : Nat) : String := if n < 10 then "0" ++ toString n else toString n

/-- Zero-pad to four digits. -/
def pad4 (n : Nat) : String :=
  if n < 10 then "000" ++ toString n
  else if n < 100 then "00" ++ toString n
  else if n < 1000 then "0" ++ toString n
  else toString n

/-- `date.isoformat()`: `YYYY-MM-DD`. -/
def Date.isoformat (d : Date) : String :=
  pad4 d.year ++ "-" ++ pad2 d.month ++ "-" ++ pad2 d.day

/-- Python `<` on datetimes: lexicographic on
(year, month, day, hour, minute, second). -/
def dtLt (a b : DateTime) : Bool :=
  if a.year ≠ b.year then decide (a.year < b.year)
  else if a.month ≠ b.month then decide (a.month < b.month)
  else if a.day ≠ b.day then decide (a.day < b.day)
  else if a.hour ≠ b.hour then decide (a.hour < b.hour)
  else if a.minute ≠ b.minute then decide (a.minute < b.minute)
  else decide (a.second < b.second)

/-- Parse exactly two digits. -/
def parse2 : List Char → Option (Nat × List Char)
  | a :: b :: rest =>
    match digitVal? a, digitVal? b with
    | some x, some y => some (10 * x + y, rest)
    | _, _ => none
  | _ => none

/-- Parse exactly four digits. -/
def parse4 : List Char → Option (Nat × List Char)
  | a :: b :: c :: d :: rest =>
    match digitVal? a, digitVal? b, digitVal? c, digitVal? d with
    | some w, some x, some y, some z => some (1000 * w + 100 * x + 10 * y + z, rest)
    | _, _, _, _ => none
  | _ => none

/-- Consume one expected character. -/
def expectChar (c : Char) : List Char → Option (List Char)
  | x :: rest => if x = c then some rest else none
  | [] => none

/-- Parse the optional time-of-day tail of an ISO string: empty means
midnight; otherwise a separator then `HH:MM` or `HH:MM:SS` to the end. -/
def parseTimePart : List Char → Option (Nat × Nat × Nat)
  | [] => some (0, 0, 0)
  | sep :: rest =>
    if sep = 'T' ∨ sep = ' ' then do
      let (h, r1) ← parse2 rest
      let r2 ← expectChar ':' r1
      let (mi, r3) ← parse2 r2
      match r3 with
      | [] => if h < 24 ∧ mi < 60 then some (h, mi, 0) else none
      | ':' :: r4 => do
        let (s, r5) ← parse2 r4
        if r5 = [] ∧ h < 24 ∧ mi < 60 ∧ s < 60 then some (h, mi, s) else none
      | _ => none
    else none

/-- `datetime.fromisoformat` restricted to the shapes the app can build:
`YYYY-MM-DD` optionally followed by `THH:MM[:SS]` (or a space separator),
with calendar-valid fields; anything else raises (modelled as `none`). -/
def fromisoformat (str : String) : Option DateTime := do
  let (y, r1) ← parse4 str.data
  let r2 ← expectChar '-' r1
  let (mo, r3) ← parse2 r2
  let r4 ← expectChar '-' r3
  let (d, r5) ← parse2 r4
  if 1 ≤ y ∧ 1 ≤ mo ∧ mo ≤ 12 ∧ 1 ≤ d ∧ d ≤ daysInMonth y mo then
    let (h, mi, s) ← parseTimePart r5
    some ⟨y, mo, d, h, mi, s⟩
  else none

/-! ### Python dict fragment (the `errors` dict of `handle_submit`) -/

/-- Python dict assignment `d[k] = v`: overwrite in place if the key exists,
else append. -/
def dictSet (d : List (String × String)) (k v : String) : List (String × String) :=
  match d with
  | [] => [(k, v)]
  | (k0, v0) :: rest => if k0 = k then (k0, v) :: rest else (k0, v0) :: dictSet rest k v

/-- Python dict lookup `d.get(k)`. -/
def dictGet? (d : List (String × String)) (k : String) : Option String :=
  match d with
  | [] => none
  | (k0, v0) :: rest => if k0 = k then some v0 else dictGet? rest k

/-! ### The two SQLite tables -/

/-- One row of `pto_links` (columns in table order). -/
structure PtoLink where
  slack_ts : String
  slack_channel : String
  slack_user : String
  target_user : String
  event_id : String
  calendar_id : String
  start_iso : String
  end_iso : String
  note : String
deriving DecidableEq

/-- The persistent store: the `pto_links` table and the `channel_settings`
table (`channel_id` → `calendar_id`). -/
structure DB where
  pto_links : List PtoLink
  channel_settings : List (String × String)
deriving DecidableEq

/-- `SELECT ... FROM pto_links WHERE slack_ts=?`. -/
def findLink (links : List PtoLink) (ts : String) : Option PtoLink :=
  links.find? (fun l => l.slack_ts == ts)

/-- `DELETE FROM pto_links WHERE slack_ts=?`. -/
def removeLink (links : List PtoLink) (ts : String) : List PtoLink :=
  links.filter (fun l => l.slack_ts != ts)

/-- `INSERT OR REPLACE INTO pto_links`: replace any row with the same
primary key. -/
def putLink (links : List PtoLink) (l : PtoLink) : List PtoLink :=
  l :: removeLink links l.slack_ts

/-- Environment-derived configuration (`PTO_CHANNEL_ID`, `PTO_CAL_ID`);
startup aborts unless both are set and nonempty. -/
structure Config where
  pto_channel : String
  cal_id : String
deriving DecidableEq

/-- `get_calendar_for_channel`: the mapped calendar for the channel, falling
back to the env default. Total — it never fails. -/
def get_calendar_for_channel (cfg : Config) (settings : List (String × String))
    (channel_id : String) : String :=
  match dictGet? settings channel_id with
  | some v => v
  | none => cfg.cal_id

/-- `set_calendar_for_channel`: `INSERT OR REPLACE INTO channel_settings`. -/
def set_calendar_for_channel (settings : List (String × String))
    (channel_id calendar_id : String) : List (String × String) :=
  (channel_id, calendar_id) :: settings.filter (fun p => p.1 != channel_id)

/-- Fold a trace of `(channel, calendar)` bind operations over the registry. -/
def applyBinds (settings : List (String × String)) :
    List (String × String) → List (String × String)
  | [] => settings
  | (c, v) :: rest => applyBinds (set_calendar_for_channel settings c v) rest

/-- The most recent calendar bound to `c` in a trace of binds, if any. -/
def lastBind? (binds : List (String × String)) (c : String) : Option String :=
  (binds.reverse.find? (fun p => p.1 == c)).map (fun p => p.2)

/-! ### The submission handler (`handle_submit`) -/

/-- Python `t.split(":")`, over characters. -/
def splitOnColon : List Char → List (List Char)
  | [] => [[]]
  | c :: rest =>
    let r := splitOnColon rest
    if c = ':' then [] :: r
    else
      match r with
      | h :: t => (c :: h) :: t
      | [] => [[c]]

/-- `_valid_time`: `t.split(":")` must give exactly two `int()`-parsable
parts with hour in [0,24) and minute in [0,60); any unpack or conversion
error yields `False`. -/
def valid_time (t : String) : Bool :=
  match splitOnColon t.data with
  | [hh, mm] =>
    match pyInt? ⟨hh⟩, pyInt? ⟨mm⟩ with
    | some h, some m =>
      decide (0 ≤ h) && decide (h < 24) && decide (0 ≤ m) && decide (m < 60)
    | _, _ => false
  | _ => false

/-- A `start`/`end` entry of a Google Calendar event body: either
`{"dateTime": ..., "timeZone": ...}` or `{"date": ...}`. -/
inductive EventTime where
  | timed (dateTime : String) (timeZone : String)
  | allDay (date : String)
deriving DecidableEq

/-- `e.get("dateTime") or e.get("date")`: the ISO value the ledger stores. -/
def EventTime.iso : EventTime → String
  | .timed dt _ => dt
  | .allDay d => d

/-- The event body sent to `cal.events().insert`. -/
structure EventBody where
  summary : String
  description : String
  startTime : EventTime
  endTime : EventTime
deriving DecidableEq

/-- Observable side effects of a handler run, in order of occurrence.
A `privateMessage` is the failure DM `chat_postMessage(channel=<user id>)`;
a `postMessage` is the public confirmation post. -/
inductive Effect where
  | calendarInsert (calendar_id : String) (body : EventBody)
  | calendarDelete (calendar_id : String) (event_id : String)
  | postMessage (channel : String) (text : String)
  | privateMessage (user_id : String)
  | chatDelete (channel : String) (ts : String)
  | logError
deriving DecidableEq

/-- Terminal state of one submission: rejected with field-tagged errors
(`ack(response_action="errors", ...)`), failed at the calendar gateway,
or linked (event created, message posted, ledger row written). -/
inductive SubmitOutcome where
  | rejected (errors : List (String × String))
  | failed
  | linked
deriving DecidableEq

/-- Whether the outcome is a field-tagged rejection. -/
def SubmitOutcome.isRejected : SubmitOutcome → Bool
  | .rejected _ => true
  | _ => false

/-- The fields `handle_submit` reads from the view-submission payload.
`none` models an absent key (or an absent optional input's value). -/
structure SubmitInput where
  requester : String
  modal_channel : Option String
  private_metadata : Option String
  target_user : String
  date : String
  date_end : Option String
  start_time : Option String
  end_time : Option String
  note : Option String
deriving DecidableEq

/-- Outcomes of the external calls `handle_submit` makes: the display name
resolved by `users_info` (`none` = lookup failed or names falsy), the event id
returned by the calendar insert (`none` = the insert raised), and the `ts`
Slack assigns to the posted confirmation message. -/
structure SubmitEnv where
  display_name : Option String
  insert_result : Option String
  posted_ts : String
deriving DecidableEq

/-- The `errors` dict built by the five validation checks of
`handle_submit`, in source order. -/
def validationErrors (inp : SubmitInput) : List (String × String) :=
  let date := inp.date
  let date_end := inp.date_end.getD date
  let start := pyStrip (inp.start_time.getD "")
  let endt := pyStrip (inp.end_time.getD "")
  let e1 := if start ≠ "" ∧ valid_time start = false then
      dictSet [] "start_b" "Use HH:MM (24h), like 09:00" else []
  let e2 := if endt ≠ "" ∧ valid_time endt = false then
      dictSet e1 "end_b" "Use HH:MM (24h), like 17:00" else e1
  let e3 := if pyStrLt date_end date = true then
      dictSet e2 "date_end_b" "End Date must be on or after Start Date." else e2
  let e4 := if start ≠ "" ∧ endt = "" then
      dictSet e3 "end_b" "Provide an end time or leave both times empty for all-day." else e3
  if endt ≠ "" ∧ start = "" then
    dictSet e4 "start_b" "Provide a start time or leave both times empty for all-day." else e4

/-- The event body `handle_submit` builds after validation passes (summary
still empty), or the error dict of a late rejection: the timed branch parses
the combined ISO strings and requires strictly increasing datetimes; the
all-day branch parses the dates and stores an exclusive end one day past the
end date. -/
def buildEventBody (inp : SubmitInput) : Except (List (String × String)) EventBody :=
  let date := inp.date
  let date_end := inp.date_end.getD date
  let start := pyStrip (inp.start_time.getD "")
  let endt := pyStrip (inp.end_time.getD "")
  let note := inp.note.getD ""
  let tz := "America/Los_Angeles"
  let description :=
    "Requested via Slack by <@" ++ inp.requester ++ "> for <@" ++ inp.target_user ++ ">.\n" ++ note
  if start ≠ "" ∧ endt ≠ "" then
    let start_iso := date ++ "T" ++ start ++ ":00"
    let end_iso := date_end ++ "T" ++ endt ++ ":00"
    match fromisoformat start_iso, fromisoformat end_iso with
    | some ds, some de =>
      if dtLt ds de then
        .ok ⟨"", description, .timed start_iso tz, .timed end_iso tz⟩
      else .error [("end_b", "End must be after start.")]
    | _, _ => .error [("end_b", "Invalid date/time.")]
  else
    match fromisoformat date, fromisoformat date_end with
    | some dt0, some dt1 =>
      .ok ⟨"", description,
        .allDay (Date.isoformat dt0.date),
        .allDay (Date.isoformat (Date.nextDay dt1.date))⟩
    | _, _ => .error [("date_end_b", "Invalid date(s).")]

/-- The confirmation-message text posted on success. -/
def confirmationText (inp : SubmitInput) (display : String) : String :=
  let date := inp.date
  let date_end := inp.date_end.getD date
  let start := pyStrip (inp.start_time.getD "")
  let endt := pyStrip (inp.end_time.getD "")
  let note := inp.note.getD ""
  "PTO booked for " ++ display ++ " (<@" ++ inp.target_user ++ ">) — " ++ date ++
    (if date_end ≠ date then " → " ++ date_end else "") ++
    (if start ≠ "" ∧ endt ≠ "" then " " ++ start ++ "-" ++ endt else " (all-day)") ++
    (if note ≠ "" then " — " ++ note else "")

/-- `post_channel = modal_channel or private_metadata or PTO_CHANNEL`. -/
def resolvedChannel (cfg : Config) (inp : SubmitInput) : String :=
  pyOr inp.modal_channel (pyOr inp.private_metadata cfg.pto_channel)

/-- The display name used in the event title and confirmation text:
the `users_info` result, falling back to a raw mention of the subject. -/
def displayOf (env : SubmitEnv) (inp : SubmitInput) : String :=
  match env.display_name with
  | some d => d
  | none => "<@" ++ inp.target_user ++ ">"

/-- `handle_submit`: validate, build the event body, resolve the display
name and target calendar, insert the event (on failure: DM the requester and
stop — no post, no ledger write), post the confirmation, and upsert the
ledger row keyed by the posted message's `ts`. -/
def handle_submit (cfg : Config) (env : SubmitEnv) (db : DB) (inp : SubmitInput) :
    SubmitOutcome × DB × List Effect :=
  let errs := validationErrors inp
  if errs ≠ [] then (.rejected errs, db, [])
  else
    match buildEventBody inp with
    | .error late => (.rejected late, db, [])
    | .ok ebody0 =>
      let ebody := { ebody0 with summary := "PTO - " ++ displayOf env inp }
      let cal_id_target :=
        get_calendar_for_channel cfg db.channel_settings (resolvedChannel cfg inp)
      match env.insert_result with
      | none => (.failed, db, [.calendarInsert cal_id_target ebody, .privateMessage inp.requester])
      | some ev_id =>
        let link : PtoLink :=
          ⟨env.posted_ts, resolvedChannel cfg inp, inp.requester, inp.target_user, ev_id,
            cal_id_target, ebody.startTime.iso, ebody.endTime.iso, inp.note.getD ""⟩
        (.linked, { db with pto_links := putLink db.pto_links link },
          [.calendarInsert cal_id_target ebody,
           .postMessage (resolvedChannel cfg inp)
             (confirmationText inp (displayOf env inp))])

/-! ### Deletion reconciliation (`on_message_events`, `handle_pto_delete`) -/

/-- The reconciliation block both deletion handlers duplicate verbatim:
look up the ts in `pto_links`; if absent do nothing; if present, attempt the
calendar delete (failure is caught and logged — `delete_ok` is the gateway
call's outcome) and then unconditionally delete the ledger row. -/
def reconcile (db : DB) (delete_ok : Bool) (ts : String) : DB × List Effect :=
  match findLink db.pto_links ts with
  | some l =>
    ({ db with pto_links := removeLink db.pto_links ts },
      Effect.calendarDelete l.calendar_id l.event_id ::
        (if delete_ok then [] else [Effect.logError]))
  | none => (db, [])

/-- `on_message_events`: on a `message_deleted` event, reconcile the deleted
message's `ts`.  The event's channel is never consulted (it only appears in
a log line). -/
def on_message_events (db : DB) (delete_ok : Bool) (subtype : Option String)
    (channel : String) (prev_ts : String) : DB × List Effect :=
  if subtype = some "message_deleted" then reconcile db delete_ok prev_ts
  else (db, [])

/-- `handle_pto_delete`: resolve the channel (`body.channel.id` falling back
to `container.channel_id` under Python `or`) and the message `ts`; if either
is falsy, log and stop. Otherwise reconcile exactly as the message-deleted
path (keyed by `ts` alone), then attempt to delete the Slack message itself
(failure caught and logged, outcome `chat_delete_ok`). -/
def handle_pto_delete (db : DB) (delete_ok chat_delete_ok : Bool)
    (body_channel_id container_channel_id : Option String) (message_ts : Option String) :
    DB × List Effect :=
  let channel_id : Option String :=
    match truthy? body_channel_id with
    | some c => some c
    | none => container_channel_id
  match truthy? channel_id, truthy? message_ts with
  | some ch, some ts =>
    ((reconcile db delete_ok ts).1,
      (reconcile db delete_ok ts).2 ++ Effect.chatDelete ch ts ::
        (if chat_delete_ok then [] else [Effect.logError]))
  | _, _ => (db, [.logError])

/-- The calendar-delete calls among a handler run's effects. -/
def deleteCalls (effs : List Effect) : List Effect :=
  effs.filter (fun e =>
    match e with
    | .calendarDelete _ _ => true
    | _ => false)

/-! ### Concrete instances used to exercise the theorems -/

/-- A sample configuration. -/
def cfgW : Config := ⟨"CPTO", "CALDEF"⟩

/-- An empty store. -/
def dbW : DB := ⟨[], []⟩

/-- A store holding one link, keyed by message ts `"1.0"`. -/
def dbOneW : DB := ⟨[⟨"1.0", "C0", "U1", "U2", "E1", "CAL", "s", "e", "n"⟩], []⟩

/-- An environment where the calendar insert fails. -/
def envFailW : SubmitEnv := ⟨none, none, "111.222"⟩

/-- An environment where the insert succeeds with event id `"EV1"`. -/
def envOkW : SubmitEnv := ⟨some "Max", some "EV1", "111.222"⟩

/-- A valid all-day submission over 2024-06-10 .. 2024-06-12. -/
def inpAllDayW : SubmitInput :=
  ⟨"U1", none, none, "U2", "2024-06-10", some "2024-06-12", none, none, none⟩

/-- A valid single-day timed submission, 09:00-17:00. -/
def inpTimedW : SubmitInput :=
  ⟨"U1", none, none, "U2", "2024-06-10", some "2024-06-10", some "09:00", some "17:00", some "trip"⟩

/-- A timed submission whose end date precedes its start date. -/
def inpInvertedW : SubmitInput :=
  ⟨"U1", none, none, "U2", "2024-06-12", some "2024-06-10", some "09:00", some "17:00", none⟩

/-- A submission supplying a start time but no end time. -/
def inpStartOnlyW : SubmitInput :=
  ⟨"U1", none, none, "U2", "2024-06-10", none, some "09:00", none, none⟩

/-- A submission supplying an end time but no start time. -/
def inpEndOnlyW : SubmitInput :=
  ⟨"U1", none, none, "U2", "2024-06-10", none, none, some "17:00", none⟩

/-- An all-day submission with an unparsable date, no end date. -/
def inpBadDateW : SubmitInput :=
  ⟨"U1", none, none, "U2", "bad", none, none, none, none⟩

/-- A valid single-day all-day submission (start date = end date). -/
def inpSingleDayW : SubmitInput :=
  ⟨"U1", none, none, "U2", "2024-06-10", some "2024-06-10", none, none, none⟩

/-! ### Helper lemmas: dicts, strings, ledger -/

theorem dictSet_ne_nil (d : List (String × String)) (k v : String) : dictSet d k v ≠ [] := by
  cases d with
  | nil => simp [dictSet]
  | cons p rest =>
    obtain ⟨k0, v0⟩ := p
    by_cases h : k0 = k <;> simp [dictSet, h]

theorem dictGet?_set_same (d : List (String × String)) (k v : String) :
    dictGet? (dictSet d k v) k = some v := by
  induction d with
  | nil => simp [dictSet, dictGet?]
  | cons p rest ih =>
    obtain ⟨k0, v0⟩ := p
    by_cases h : k0 = k
    · subst h; simp [dictSet, dictGet?]
    · simp [dictSet, dictGet?, h, ih]

theorem dictGet?_set_other (d : List (String × String)) (k v k' : String) (h : k' ≠ k) :
    dictGet? (dictSet d k v) k' = dictGet? d k' := by
  induction d with
  | nil => simp [dictSet, dictGet?, Ne.symm h]
  | cons p rest ih =>
    obtain ⟨k0, v0⟩ := p
    by_cases hk : k0 = k
    · subst hk; simp [dictSet, dictGet?, Ne.symm h]
    · simp [dictSet, dictGet?, hk, ih]

theorem charListLt_irrefl (l : List Char) : charListLt l l = false := by
  induction l with
  | nil => rfl
  | cons a as ih => simp [charListLt, ih]

theorem pyStrLt_irrefl (s : String) : pyStrLt s s = false := charListLt_irrefl s.data

theorem findLink_putLink_self (links : List PtoLink) (l : PtoLink) :
    findLink (putLink links l) l.slack_ts = some l := by
  simp [findLink, putLink, List.find?]

theorem truthy?_eq_some {a : Option String} {t : String} (h : truthy? a = some t) :
    a = some t := by
  cases a with
  | none => simp [truthy?] at h
  | some s =>
    by_cases hs : s = ""
    · simp [truthy?, hs] at h
    · simp [truthy?, hs] at h
      rw [h]

theorem truthy?_some_of_ne {s : String} (h : s ≠ "") : truthy? (some s) = some s := by
  simp [truthy?, h]

/-! ### Helper lemmas: the channel-calendar registry -/

theorem dictGet?_filter_ne (s : List (String × String)) (c0 c : String) (h : c ≠ c0) :
    dictGet? (s.filter (fun p => p.1 != c0)) c = dictGet? s c := by
  induction s with
  | nil => rfl
  | cons p rest ih =>
    obtain ⟨k, v⟩ := p
    by_cases hk : k = c0
    · subst hk
      simp [dictGet?, Ne.symm h, ih]
    · by_cases hc : k = c
      · subst hc; simp [dictGet?, hk]
      · simp [dictGet?, hk, hc, ih]

theorem get_set_same (cfg : Config) (s : List (String × String)) (c v : String) :
    get_calendar_for_channel cfg (set_calendar_for_channel s c v) c = v := by
  simp [get_calendar_for_channel, set_calendar_for_channel, dictGet?]

theorem get_set_other (cfg : Config) (s : List (String × String)) (c v c' : String)
    (h : c' ≠ c) :
    get_calendar_for_channel cfg (set_calendar_for_channel s c v) c' =
      get_calendar_for_channel cfg s c' := by
  simp [get_calendar_for_channel, set_calendar_for_channel, dictGet?,
    Ne.symm h, dictGet?_filter_ne s c c' h]

theorem lastBind?_cons (c0 v0 : String) (rest : List (String × String)) (c : String) :
    lastBind? ((c0, v0) :: rest) c =
      match lastBind? rest c with
      | some v => some v
      | none => if c0 = c then some v0 else none := by
  unfold lastBind?
  rw [List.reverse_cons, List.find?_append]
  cases h : rest.reverse.find? (fun p => p.1 == c) with
  | some p => simp [h, Option.or]
  | none =>
    simp only [h, Option.or, Option.map]
    by_cases hc : c0 = c
    · simp [List.find?, hc]
    · have hbe : (c0 == c) = false := by simp [hc]
      simp [List.find?, hbe, hc]

theorem get_applyBinds (cfg : Config) (binds : List (String × String)) :
    ∀ (s : List (String × String)) (c : String),
      get_calendar_for_channel cfg (applyBinds s binds) c =
        match lastBind? binds c with
        | some v => v
        | none => get_calendar_for_channel cfg s c := by
  induction binds with
  | nil => intro s c; rfl
  | cons p rest ih =>
    obtain ⟨c0, v0⟩ := p
    intro s c
    rw [applyBinds, ih, lastBind?_cons]
    cases h : lastBind? rest c with
    | some v => rfl
    | none =>
      by_cases hc : c0 = c
      · subst hc; simp [get_set_same]
      · simp [hc, get_set_other cfg s c0 v0 c (Ne.symm hc)]

/-- Reconciliation on a missing ts does nothing. -/
theorem reconcile_missing (db : DB) (ok : Bool) (ts : String)
    (hmiss : findLink db.pto_links ts = none) : reconcile db ok ts = (db, []) := by
  unfold reconcile
  simp [hmiss]

/-- Reconciliation on a present ts: delete call attempted, row removed,
regardless of the gateway outcome. -/
theorem reconcile_found (db : DB) (ok : Bool) (ts : String) (l : PtoLink)
    (hfound : findLink db.pto_links ts = some l) :
    reconcile db ok ts =
      ({ db with pto_links := removeLink db.pto_links ts },
        Effect.calendarDelete l.calendar_id l.event_id ::
          (if ok then [] else [Effect.logError])) := by
  unfold reconcile
  simp [hfound]

/-- The delete-action handler on a ts with no ledger row: store unchanged,
no calendar-delete call, for any channel fields and call outcomes. -/
theorem handle_pto_delete_missing (db : DB) (ok2 ok3 : Bool) (cid ccid : Option String)
    (ts : String) (hmiss : findLink db.pto_links ts = none) :
    (handle_pto_delete db ok2 ok3 cid ccid (some ts)).1 = db ∧
    deleteCalls (handle_pto_delete db ok2 ok3 cid ccid (some ts)).2 = [] := by
  unfold handle_pto_delete
  rcases hco : truthy? (match truthy? cid with | some c => some c | none => ccid) with _ | ch
  · rcases htt : truthy? (some ts) with _ | t <;> simp only [hco, htt] <;> simp [deleteCalls]
  · rcases htt : truthy? (some ts) with _ | t
    · simp only [hco, htt]; simp [deleteCalls]
    · simp only [hco, htt]
      have h2 : t = ts := (Option.some_inj.mp (truthy?_eq_some htt)).symm
      subst h2
      cases ok3 <;>
        simp [reconcile_missing _ _ _ hmiss, deleteCalls]

/-! ### Helper lemmas: the submission handler -/

/-- Validation failure short-circuits `handle_submit`. -/
theorem handle_submit_rejected_of_errors (cfg : Config) (env : SubmitEnv) (db : DB)
    (inp : SubmitInput) (h : validationErrors inp ≠ []) :
    handle_submit cfg env db inp = (.rejected (validationErrors inp), db, []) := by
  unfold handle_submit
  rw [if_pos h]

/-- A failed event-body build short-circuits `handle_submit`. -/
theorem handle_submit_rejected_of_build (cfg : Config) (env : SubmitEnv) (db : DB)
    (inp : SubmitInput) (late : List (String × String))
    (hval : validationErrors inp = []) (hb : buildEventBody inp = .error late) :
    handle_submit cfg env db inp = (.rejected late, db, []) := by
  unfold handle_submit
  rw [if_neg (by simp [hval]), hb]

/-- Gateway insert failure: private notification, nothing else. -/
theorem handle_submit_failed_eq (cfg : Config) (env : SubmitEnv) (db : DB)
    (inp : SubmitInput) (eb : EventBody)
    (hval : validationErrors inp = []) (hb : buildEventBody inp = .ok eb)
    (hins : env.insert_result = none) :
    handle_submit cfg env db inp =
      (.failed, db,
        [.calendarInsert
            (get_calendar_for_channel cfg db.channel_settings (resolvedChannel cfg inp))
            { eb with summary := "PTO - " ++ displayOf env inp },
          .privateMessage inp.requester]) := by
  unfold handle_submit
  rw [if_neg (by simp [hval]), hb, hins]

/-- Successful submission: confirmation posted, ledger row upserted. -/
theorem handle_submit_linked_eq (cfg : Config) (env : SubmitEnv) (db : DB)
    (inp : SubmitInput) (eb : EventBody) (ev : String)
    (hval : validationErrors inp = []) (hb : buildEventBody inp = .ok eb)
    (hins : env.insert_result = some ev) :
    handle_submit cfg env db inp =
      (.linked,
        { db with
            pto_links :=
              putLink db.pto_links
                (PtoLink.mk env.posted_ts (resolvedChannel cfg inp) inp.requester
                  inp.target_user ev
                  (get_calendar_for_channel cfg db.channel_settings
                    (resolvedChannel cfg inp))
                  (({ eb with summary := "PTO - " ++ displayOf env inp }).startTime.iso)
                  (({ eb with summary := "PTO - " ++ displayOf env inp }).endTime.iso)
                  (inp.note.getD "")) },
        [.calendarInsert
            (get_calendar_for_channel cfg db.channel_settings (resolvedChannel cfg inp))
            { eb with summary := "PTO - " ++ displayOf env inp },
          .postMessage (resolvedChannel cfg inp)
            (confirmationText inp (displayOf env inp))]) := by
  unfold handle_submit
  rw [if_neg (by simp [hval]), hb, hins]

/-- A linked outcome means validation passed, the event body was built, and
the insert succeeded. -/
theorem handle_submit_linked_inv (cfg : Config) (env : SubmitEnv) (db : DB)
    (inp : SubmitInput)
    (h : (handle_submit cfg env db inp).1 = .linked) :
    validationErrors inp = [] ∧ (∃ eb, buildEventBody inp = .ok eb) ∧
      ∃ ev, env.insert_result = some ev := by
  by_cases hval : validationErrors inp = []
  · cases hb : buildEventBody inp with
    | error late =>
      rw [handle_submit_rejected_of_build cfg env db inp late hval hb] at h
      simp at h
    | ok eb =>
      cases hins : env.insert_result with
      | none =>
        rw [handle_submit_failed_eq cfg env db inp eb hval hb hins] at h
        simp at h
      | some ev => exact ⟨hval, ⟨eb, rfl⟩, ⟨ev, rfl⟩⟩
  · rw [handle_submit_rejected_of_errors cfg env db inp hval] at h
    simp at h

/-- When at most one time is supplied (the all-day branch), a successful
event-body build stores an all-day interval with exclusive end one day past
the parsed end date. -/
theorem buildEventBody_ok_allday (inp : SubmitInput) (eb : EventBody)
    (hst : pyStrip (inp.start_time.getD "") = "" ∨ pyStrip (inp.end_time.getD "") = "")
    (hb : buildEventBody inp = .ok eb) :
    ∃ dt0 dt1, fromisoformat inp.date = some dt0 ∧
      fromisoformat (inp.date_end.getD inp.date) = some dt1 ∧
      eb.startTime = .allDay (Date.isoformat dt0.date) ∧
      eb.endTime = .allDay (Date.isoformat (Date.nextDay dt1.date)) := by
  have hcond : ¬(pyStrip (inp.start_time.getD "") ≠ "" ∧ pyStrip (inp.end_time.getD "") ≠ "") := by
    rcases hst with h | h <;> simp [h]
  unfold buildEventBody at hb
  rw [if_neg hcond] at hb
  cases h0 : fromisoformat inp.date with
  | none => rw [h0] at hb; simp at hb
  | some dt0 =>
    cases h1 : fromisoformat (inp.date_end.getD inp.date) with
    | none => rw [h0, h1] at hb; simp at hb
    | some dt1 =>
      rw [h0, h1] at hb
      simp only [Except.ok.injEq] at hb
      subst hb
      exact ⟨dt0, dt1, rfl, rfl, rfl, rfl⟩

/-- When both times are supplied, a successful event-body build stores the
combined ISO strings, which parse to strictly increasing datetimes. -/
theorem buildEventBody_ok_timed (inp : SubmitInput) (eb : EventBody)
    (hst : pyStrip (inp.start_time.getD "") ≠ "")
    (het : pyStrip (inp.end_time.getD "") ≠ "")
    (hb : buildEventBody inp = .ok eb) :
    ∃ ds de,
      fromisoformat (inp.date ++ "T" ++ pyStrip (inp.start_time.getD "") ++ ":00") = some ds ∧
      fromisoformat ((inp.date_end.getD inp.date) ++ "T" ++
        pyStrip (inp.end_time.getD "") ++ ":00") = some de ∧
      dtLt ds de = true ∧
      eb.startTime = .timed (inp.date ++ "T" ++ pyStrip (inp.start_time.getD "") ++ ":00")
        "America/Los_Angeles" ∧
      eb.endTime = .timed ((inp.date_end.getD inp.date) ++ "T" ++
        pyStrip (inp.end_time.getD "") ++ ":00") "America/Los_Angeles" := by
  unfold buildEventBody at hb
  rw [if_pos ⟨hst, het⟩] at hb
  simp only [] at hb
  cases h0 : fromisoformat (inp.date ++ "T" ++ pyStrip (inp.start_time.getD "") ++ ":00") with
  | none => rw [h0] at hb; simp at hb
  | some ds =>
    cases h1 : fromisoformat ((inp.date_end.getD inp.date) ++ "T" ++
        pyStrip (inp.end_time.getD "") ++ ":00") with
    | none => rw [h0, h1] at hb; simp at hb
    | some de =>
      simp only [h0, h1] at hb
      cases hlt : dtLt ds de with
      | false => simp [hlt] at hb
      | true =>
        simp only [hlt, eq_self_iff_true, if_true, Except.ok.injEq] at hb
        subst hb
        exact ⟨ds, de, rfl, rfl, hlt, rfl, rfl⟩

/-- Every late rejection is one of the three literal error dicts. -/
theorem buildEventBody_error_inv (inp : SubmitInput) (late : List (String × String))
    (hb : buildEventBody inp = .error late) :
    late = [("end_b", "End must be after start.")] ∨
    late = [("end_b", "Invalid date/time.")] ∨
    late = [("date_end_b", "Invalid date(s).")] := by
  unfold buildEventBody at hb
  simp only [] at hb
  split at hb
  · split at hb
    · split at hb
      · simp at hb
      · simp only [Except.error.injEq] at hb
        exact Or.inl hb.symm
    · simp only [Except.error.injEq] at hb
      exact Or.inr (Or.inl hb.symm)
  · split at hb
    · simp at hb
    · simp only [Except.error.injEq] at hb
      exact Or.inr (Or.inr hb.symm)

/-- With a start time but no end time, the errors dict ends with the
missing-end-time entry. -/
theorem validationErrors_start_only (inp : SubmitInput)
    (hst : pyStrip (inp.start_time.getD "") ≠ "")
    (het : pyStrip (inp.end_time.getD "") = "") :
    ∃ d, validationErrors inp =
      dictSet d "end_b" "Provide an end time or leave both times empty for all-day." := by
  unfold validationErrors
  simp only [het, hst, ne_eq, not_true_eq_false, false_and, if_false,
    not_false_eq_true, and_true, true_and, if_true, and_false]
  exact ⟨_, rfl⟩

/-- With an end time but no start time, the errors dict ends with the
missing-start-time entry. -/
theorem validationErrors_end_only (inp : SubmitInput)
    (het : pyStrip (inp.end_time.getD "") ≠ "")
    (hst : pyStrip (inp.start_time.getD "") = "") :
    ∃ d, validationErrors inp =
      dictSet d "start_b" "Provide a start time or leave both times empty for all-day." := by
  unfold validationErrors
  simp only [het, hst, ne_eq, not_true_eq_false, false_and, if_false,
    not_false_eq_true, and_true, true_and, if_true, and_false]
  exact ⟨_, rfl⟩

/-- When the end date does not precede the start date, the errors dict never
tags the end-date field. -/
theorem validationErrors_no_dateend_tag (inp : SubmitInput)
    (h : pyStrLt (inp.date_end.getD inp.date) inp.date = false) :
    dictGet? (validationErrors inp) "date_end_b" = none := by
  unfold validationErrors
  simp only [h, Bool.false_eq_true, if_false]
  repeat' split
  all_goals decide

/-! ### Claim theorems -/

/-- C7: after any trace of bind operations on the initially empty registry,
`get_calendar_for_channel` (resolve) returns the calendar most recently bound
to the channel, and the process-wide default `cfg.cal_id` when the channel
was never bound.  It is a total function — it never fails. -/
theorem resolve_returns_last_bind (cfg : Config) (binds : List (String × String))
    (c : String) :
    get_calendar_for_channel cfg (applyBinds [] binds) c =
      (lastBind? binds c).getD cfg.cal_id := by
  rw [get_applyBinds]
  cases h : lastBind? binds c with
  | some v => rfl
  | none => rfl

/-- C5: a deletion signal whose message ts has no ledger row is a no-op on
the ledger: the message-deleted path returns the store unchanged with no
effects at all (no gateway delete call, no error — the handler is total),
processing the same signal twice equals processing it once, and the
delete-action path leaves the store unchanged and makes no calendar-delete
call, whatever its channel fields and external call outcomes are. -/
theorem deletion_missing_link_noop (db : DB) (ok ok2 ok3 : Bool) (ch ts : String)
    (cid ccid : Option String)
    (hmiss : findLink db.pto_links ts = none) :
    on_message_events db ok (some "message_deleted") ch ts = (db, []) ∧
    on_message_events (on_message_events db ok (some "message_deleted") ch ts).1 ok
      (some "message_deleted") ch ts = (db, []) ∧
    (handle_pto_delete db ok2 ok3 cid ccid (some ts)).1 = db ∧
    deleteCalls (handle_pto_delete db ok2 ok3 cid ccid (some ts)).2 = [] := by
  have h1 : on_message_events db ok (some "message_deleted") ch ts = (db, []) := by
    unfold on_message_events
    simp [reconcile_missing db ok ts hmiss]
  exact ⟨h1, by rw [h1]; exact h1,
    (handle_pto_delete_missing db ok2 ok3 cid ccid ts hmiss).1,
    (handle_pto_delete_missing db ok2 ok3 cid ccid ts hmiss).2⟩

/-- C6: a deletion signal whose message ts has a ledger row removes that row
regardless of the calendar gateway's delete outcome (`ok` ranges over both):
both reconciliation paths attempt the calendar delete and then delete the
ledger row unconditionally; a gateway failure only adds a log entry. -/
theorem deletion_removes_link_regardless (db : DB) (l : PtoLink) (ok ok2 : Bool)
    (ch ts : String)
    (hfound : findLink db.pto_links ts = some l) (hch : ch ≠ "") (hts : ts ≠ "") :
    (on_message_events db ok (some "message_deleted") ch ts).1.pto_links =
      removeLink db.pto_links ts ∧
    Effect.calendarDelete l.calendar_id l.event_id ∈
      (on_message_events db ok (some "message_deleted") ch ts).2 ∧
    (handle_pto_delete db ok ok2 (some ch) none (some ts)).1.pto_links =
      removeLink db.pto_links ts ∧
    Effect.calendarDelete l.calendar_id l.event_id ∈
      (handle_pto_delete db ok ok2 (some ch) none (some ts)).2 := by
  have hon : on_message_events db ok (some "message_deleted") ch ts =
      ({ db with pto_links := removeLink db.pto_links ts },
        Effect.calendarDelete l.calendar_id l.event_id ::
          (if ok then [] else [Effect.logError])) := by
    unfold on_message_events
    simp [reconcile_found db ok ts l hfound]
  have hpd : handle_pto_delete db ok ok2 (some ch) none (some ts) =
      ({ db with pto_links := removeLink db.pto_links ts },
        (Effect.calendarDelete l.calendar_id l.event_id ::
          (if ok then [] else [Effect.logError])) ++
          Effect.chatDelete ch ts :: (if ok2 then [] else [Effect.logError])) := by
    unfold handle_pto_delete
    simp [truthy?_some_of_ne hch, truthy?_some_of_ne hts,
      reconcile_found db ok ts l hfound]
  refine ⟨by rw [hon], by rw [hon]; exact List.mem_cons_self _ _, by rw [hpd], ?_⟩
  rw [hpd]
  exact List.mem_append_left _ (List.mem_cons_self _ _)

/-- C9: the delete action with a truthy channel and ts removes the Slack
message (the `chatDelete` call is made) even when the ledger has no row for
that ts — message removal does not depend on link existence. -/
theorem delete_action_removes_message_unlinked (db : DB) (ok ok2 : Bool) (ch ts : String)
    (hch : ch ≠ "") (hts : ts ≠ "") (hmiss : findLink db.pto_links ts = none) :
    (handle_pto_delete db ok ok2 (some ch) none (some ts)).1 = db ∧
    Effect.chatDelete ch ts ∈ (handle_pto_delete db ok ok2 (some ch) none (some ts)).2 := by
  unfold handle_pto_delete
  simp [truthy?_some_of_ne hch, truthy?_some_of_ne hts,
    reconcile_missing db ok ts hmiss]

/-- C10 counterexample: the claim fails as stated because the delete-action
handler treats a falsy (empty) channel identifier as missing and aborts
before reconciliation.  Two deletion signals with the same ts `"1.0"` but
different channel identifiers (`""` vs `"C1"`) leave different ledger
states on a store holding a row for that ts. -/
theorem reconciliation_channel_dependent_cx :
    (handle_pto_delete dbOneW true true (some "") none (some "1.0")).1 ≠
      (handle_pto_delete dbOneW true true (some "C1") none (some "1.0")).1 := by
  decide

/-- C10 amended: reconciliation is keyed by ts alone.  The message-deleted
path ignores the channel entirely, and for any two delete-action signals with
the same ts and nonempty channel identifiers, the resulting store and the
calendar-delete calls are identical (an empty channel identifier would abort
the handler before reconciliation). -/
theorem reconciliation_channel_independent (db : DB) (ok ok2 : Bool) (st : Option String)
    (c1 c2 ts : String) (hc1 : c1 ≠ "") (hc2 : c2 ≠ "") :
    on_message_events db ok st c1 ts = on_message_events db ok st c2 ts ∧
    (handle_pto_delete db ok ok2 (some c1) none (some ts)).1 =
      (handle_pto_delete db ok ok2 (some c2) none (some ts)).1 ∧
    deleteCalls (handle_pto_delete db ok ok2 (some c1) none (some ts)).2 =
      deleteCalls (handle_pto_delete db ok ok2 (some c2) none (some ts)).2 := by
  refine ⟨rfl, ?_, ?_⟩ <;>
  · unfold handle_pto_delete
    simp only [truthy?_some_of_ne hc1, truthy?_some_of_ne hc2]
    rcases htt : truthy? (some ts) with _ | t
    · rfl
    · cases hf : findLink db.pto_links t <;> cases ok <;> cases ok2 <;>
        simp [reconcile, hf, deleteCalls]

/-- C5 witness: a concrete stray deletion signal against an empty ledger. -/
theorem deletion_missing_link_noop_witness :
    on_message_events dbW true (some "message_deleted") "C0" "9.9" = (dbW, []) ∧
    on_message_events (on_message_events dbW true (some "message_deleted") "C0" "9.9").1
      true (some "message_deleted") "C0" "9.9" = (dbW, []) ∧
    (handle_pto_delete dbW true true (some "C0") none (some "9.9")).1 = dbW ∧
    deleteCalls (handle_pto_delete dbW true true (some "C0") none (some "9.9")).2 = [] :=
  deletion_missing_link_noop dbW true true true "C0" "9.9" (some "C0") none rfl

/-- C6 witness: a linked ts `"1.0"` is unlinked even when the gateway delete
fails (`false` outcome) on both reconciliation paths. -/
theorem deletion_removes_link_regardless_witness :
    (on_message_events dbOneW false (some "message_deleted") "C0" "1.0").1.pto_links =
      removeLink dbOneW.pto_links "1.0" ∧
    Effect.calendarDelete "CAL" "E1" ∈
      (on_message_events dbOneW false (some "message_deleted") "C0" "1.0").2 ∧
    (handle_pto_delete dbOneW false true (some "C0") none (some "1.0")).1.pto_links =
      removeLink dbOneW.pto_links "1.0" ∧
    Effect.calendarDelete "CAL" "E1" ∈
      (handle_pto_delete dbOneW false true (some "C0") none (some "1.0")).2 :=
  deletion_removes_link_regardless dbOneW
    ⟨"1.0", "C0", "U1", "U2", "E1", "CAL", "s", "e", "n"⟩ false true "C0" "1.0"
    (by decide) (by decide) (by decide)

/-- C9 witness: the delete action on an unlinked ts still deletes the Slack
message. -/
theorem delete_action_removes_message_unlinked_witness :
    (handle_pto_delete dbW true true (some "C1") none (some "9.9")).1 = dbW ∧
    Effect.chatDelete "C1" "9.9" ∈
      (handle_pto_delete dbW true true (some "C1") none (some "9.9")).2 :=
  delete_action_removes_message_unlinked dbW true true "C1" "9.9"
    (by decide) (by decide) rfl

/-- C10 witness: two delete-action signals with nonempty channels `"CA"` and
`"CB"` on the same linked ts produce the same store and delete calls. -/
theorem reconciliation_channel_independent_witness :
    on_message_events dbOneW true none "CA" "1.0" =
      on_message_events dbOneW true none "CB" "1.0" ∧
    (handle_pto_delete dbOneW true true (some "CA") none (some "1.0")).1 =
      (handle_pto_delete dbOneW true true (some "CB") none (some "1.0")).1 ∧
    deleteCalls (handle_pto_delete dbOneW true true (some "CA") none (some "1.0")).2 =
      deleteCalls (handle_pto_delete dbOneW true true (some "CB") none (some "1.0")).2 :=
  reconciliation_channel_independent dbOneW true true none "CA" "CB" "1.0"
    (by decide) (by decide)

/-- C1: when the calendar insert fails for a submission that passes
validation, the orchestrator notifies the requester privately and stops:
the outcome is `failed`, the store (in particular the link ledger) is
exactly as before, and the only effects are the failed insert attempt and
the private notification — no confirmation message is posted and no ledger
row is written. -/
theorem gateway_failure_no_partial_state (cfg : Config) (env : SubmitEnv) (db : DB)
    (inp : SubmitInput)
    (hfail : env.insert_result = none)
    (hnorej : (handle_submit cfg env db inp).1.isRejected = false) :
    (handle_submit cfg env db inp).1 = .failed ∧
    (handle_submit cfg env db inp).2.1 = db ∧
    ∃ c b, (handle_submit cfg env db inp).2.2 =
      [.calendarInsert c b, .privateMessage inp.requester] := by
  by_cases hval : validationErrors inp = []
  · cases hb : buildEventBody inp with
    | error late =>
      rw [handle_submit_rejected_of_build cfg env db inp late hval hb] at hnorej
      simp [SubmitOutcome.isRejected] at hnorej
    | ok eb =>
      rw [handle_submit_failed_eq cfg env db inp eb hval hb hfail]
      exact ⟨rfl, rfl, _, _, rfl⟩
  · rw [handle_submit_rejected_of_errors cfg env db inp hval] at hnorej
    simp [SubmitOutcome.isRejected] at hnorej

/-- C1 witness: a concrete valid all-day submission with a failing insert. -/
theorem gateway_failure_no_partial_state_witness :
    (handle_submit cfgW envFailW dbW inpAllDayW).1 = .failed ∧
    (handle_submit cfgW envFailW dbW inpAllDayW).2.1 = dbW ∧
    ∃ c b, (handle_submit cfgW envFailW dbW inpAllDayW).2.2 =
      [.calendarInsert c b, .privateMessage inpAllDayW.requester] :=
  gateway_failure_no_partial_state cfgW envFailW dbW inpAllDayW rfl (by decide)

/-- C2: every successful all-day submission (no start time, no end time)
stores an interval whose start is the parsed start date and whose end is the
parsed end date plus one day — the exclusive-end convention.  The statement
quantifies over all inputs, so it covers the single-day case D0 = D1. -/
theorem allday_end_exclusive (cfg : Config) (env : SubmitEnv) (db : DB)
    (inp : SubmitInput)
    (hst : pyStrip (inp.start_time.getD "") = "")
    (het : pyStrip (inp.end_time.getD "") = "")
    (hlinked : (handle_submit cfg env db inp).1 = .linked) :
    ∃ l dt0 dt1,
      findLink (handle_submit cfg env db inp).2.1.pto_links env.posted_ts = some l ∧
      fromisoformat inp.date = some dt0 ∧
      fromisoformat (inp.date_end.getD inp.date) = some dt1 ∧
      l.start_iso = Date.isoformat dt0.date ∧
      l.end_iso = Date.isoformat (Date.nextDay dt1.date) := by
  obtain ⟨hval, ⟨eb, hb⟩, ⟨ev, hins⟩⟩ := handle_submit_linked_inv cfg env db inp hlinked
  obtain ⟨dt0, dt1, h0, h1, hsT, heT⟩ := buildEventBody_ok_allday inp eb (Or.inl hst) hb
  rw [handle_submit_linked_eq cfg env db inp eb ev hval hb hins]
  refine ⟨_, dt0, dt1, findLink_putLink_self db.pto_links _, h0, h1, ?_, ?_⟩
  · simp [hsT, EventTime.iso]
  · simp [heT, EventTime.iso]

/-- C2 witness: a concrete successful single-day all-day submission
(D0 = D1 = 2024-06-10; stored end 2024-06-11). -/
theorem allday_end_exclusive_witness :
    ∃ l dt0 dt1,
      findLink (handle_submit cfgW envOkW dbW inpSingleDayW).2.1.pto_links
        envOkW.posted_ts = some l ∧
      fromisoformat inpSingleDayW.date = some dt0 ∧
      fromisoformat (inpSingleDayW.date_end.getD inpSingleDayW.date) = some dt1 ∧
      l.start_iso = Date.isoformat dt0.date ∧
      l.end_iso = Date.isoformat (Date.nextDay dt1.date) :=
  allday_end_exclusive cfgW envOkW dbW inpSingleDayW rfl rfl (by decide)

/-- C3 counterexample: the claim fails as stated.  A timed submission whose
end date precedes its start date has combined end ≤ combined start, yet it
is rejected with the error tagged on the end-date field (`date_end_b`) and
no entry at all on the end-time field (`end_b`). -/
theorem timed_end_tag_counterexample :
    fromisoformat (inpInvertedW.date ++ "T" ++
      pyStrip (inpInvertedW.start_time.getD "") ++ ":00") =
      some ⟨2024, 6, 12, 9, 0, 0⟩ ∧
    fromisoformat ((inpInvertedW.date_end.getD inpInvertedW.date) ++ "T" ++
      pyStrip (inpInvertedW.end_time.getD "") ++ ":00") =
      some ⟨2024, 6, 10, 17, 0, 0⟩ ∧
    dtLt ⟨2024, 6, 12, 9, 0, 0⟩ ⟨2024, 6, 10, 17, 0, 0⟩ = false ∧
    handle_submit cfgW envOkW dbW inpInvertedW =
      (.rejected [("date_end_b", "End Date must be on or after Start Date.")], dbW, []) ∧
    dictGet? [("date_end_b", "End Date must be on or after Start Date.")] "end_b" = none := by
  decide

/-- C3 (amended): for a timed submission that passes the field validation
gate, if the combined end datetime is not strictly after the combined start
datetime the submission is rejected with a validation error tagged on the
end-time field and nothing else happens; and every timed submission that
succeeds stores ISO values whose parsed end is strictly after the parsed
start.  (As originally stated the claim fails when the end date precedes the
start date: that case is rejected earlier, tagged on the end-date field.) -/
theorem timed_end_strictly_after_start (cfg : Config) (env : SubmitEnv) (db : DB)
    (inp : SubmitInput)
    (hst : pyStrip (inp.start_time.getD "") ≠ "")
    (het : pyStrip (inp.end_time.getD "") ≠ "") :
    (∀ ds de, validationErrors inp = [] →
      fromisoformat (inp.date ++ "T" ++ pyStrip (inp.start_time.getD "") ++ ":00") = some ds →
      fromisoformat ((inp.date_end.getD inp.date) ++ "T" ++
        pyStrip (inp.end_time.getD "") ++ ":00") = some de →
      dtLt ds de = false →
      handle_submit cfg env db inp =
        (.rejected [("end_b", "End must be after start.")], db, [])) ∧
    ((handle_submit cfg env db inp).1 = .linked →
      ∃ l ds de,
        findLink (handle_submit cfg env db inp).2.1.pto_links env.posted_ts = some l ∧
        fromisoformat l.start_iso = some ds ∧
        fromisoformat l.end_iso = some de ∧
        dtLt ds de = true) := by
  constructor
  · intro ds de hval hs he hlt
    apply handle_submit_rejected_of_build cfg env db inp _ hval
    unfold buildEventBody
    simp [hst, het, hs, he, hlt]
  · intro hlinked
    obtain ⟨hval, ⟨eb, hb⟩, ⟨ev, hins⟩⟩ := handle_submit_linked_inv cfg env db inp hlinked
    obtain ⟨ds, de, hs, he, hlt, hsT, heT⟩ := buildEventBody_ok_timed inp eb hst het hb
    rw [handle_submit_linked_eq cfg env db inp eb ev hval hb hins]
    refine ⟨_, ds, de, findLink_putLink_self db.pto_links _, ?_, ?_, hlt⟩
    · simp [hsT, EventTime.iso, hs]
    · simp [heT, EventTime.iso, he]

/-- C3 witness: a concrete successful timed submission, stored end strictly
after stored start. -/
theorem timed_end_strictly_after_start_witness :
    ∃ l ds de,
      findLink (handle_submit cfgW envOkW dbW inpTimedW).2.1.pto_links
        envOkW.posted_ts = some l ∧
      fromisoformat l.start_iso = some ds ∧
      fromisoformat l.end_iso = some de ∧
      dtLt ds de = true :=
  (timed_end_strictly_after_start cfgW envOkW dbW inpTimedW
    (by decide) (by decide)).2 (by decide)

/-- C4: supplying exactly one of start-time/end-time always rejects the
submission with a validation error tagged on the missing time field, with
the store untouched and no effects (so no event is created). -/
theorem one_time_missing_rejected (cfg : Config) (env : SubmitEnv) (db : DB)
    (inp : SubmitInput) :
    (pyStrip (inp.start_time.getD "") ≠ "" → pyStrip (inp.end_time.getD "") = "" →
      handle_submit cfg env db inp = (.rejected (validationErrors inp), db, []) ∧
      dictGet? (validationErrors inp) "end_b" =
        some "Provide an end time or leave both times empty for all-day.") ∧
    (pyStrip (inp.end_time.getD "") ≠ "" → pyStrip (inp.start_time.getD "") = "" →
      handle_submit cfg env db inp = (.rejected (validationErrors inp), db, []) ∧
      dictGet? (validationErrors inp) "start_b" =
        some "Provide a start time or leave both times empty for all-day.") := by
  constructor
  · intro hst het
    obtain ⟨d, hd⟩ := validationErrors_start_only inp hst het
    have hne : validationErrors inp ≠ [] := by rw [hd]; exact dictSet_ne_nil d _ _
    exact ⟨handle_submit_rejected_of_errors cfg env db inp hne,
      by rw [hd, dictGet?_set_same]⟩
  · intro het hst
    obtain ⟨d, hd⟩ := validationErrors_end_only inp het hst
    have hne : validationErrors inp ≠ [] := by rw [hd]; exact dictSet_ne_nil d _ _
    exact ⟨handle_submit_rejected_of_errors cfg env db inp hne,
      by rw [hd, dictGet?_set_same]⟩

/-- C4 witness: a concrete submission with a start time and no end time. -/
theorem one_time_missing_rejected_witness :
    handle_submit cfgW envOkW dbW inpStartOnlyW =
      (.rejected (validationErrors inpStartOnlyW), dbW, []) ∧
    dictGet? (validationErrors inpStartOnlyW) "end_b" =
      some "Provide an end time or leave both times empty for all-day." :=
  (one_time_missing_rejected cfgW envOkW dbW inpStartOnlyW).1 (by decide) (by decide)

/-- C8: a submission with no end date behaves exactly like the same
submission with the end date set to the start date (a single-day request),
and in particular the end-date range check can never fire: no rejection ever
carries the range-error message on the end-date field. -/
theorem absent_end_date_defaults_to_start (cfg : Config) (env : SubmitEnv) (db : DB)
    (inp : SubmitInput) :
    handle_submit cfg env db { inp with date_end := none } =
      handle_submit cfg env db { inp with date_end := some inp.date } ∧
    (∀ errs, (handle_submit cfg env db { inp with date_end := none }).1 = .rejected errs →
      dictGet? errs "date_end_b" ≠ some "End Date must be on or after Start Date.") := by
  constructor
  · rfl
  · intro errs h
    by_cases hval : validationErrors { inp with date_end := none } = []
    · cases hb : buildEventBody { inp with date_end := none } with
      | error late =>
        rw [handle_submit_rejected_of_build cfg env db _ late hval hb] at h
        simp only [SubmitOutcome.rejected.injEq] at h
        rcases buildEventBody_error_inv _ late hb with h3 | h3 | h3 <;>
          rw [← h, h3] <;> decide
      | ok eb =>
        cases hins : env.insert_result with
        | none =>
          rw [handle_submit_failed_eq cfg env db _ eb hval hb hins] at h
          simp at h
        | some ev =>
          rw [handle_submit_linked_eq cfg env db _ eb ev hval hb hins] at h
          simp at h
    · rw [handle_submit_rejected_of_errors cfg env db _ hval] at h
      simp only [SubmitOutcome.rejected.injEq] at h
      rw [← h, validationErrors_no_dateend_tag { inp with date_end := none }
        (pyStrLt_irrefl inp.date)]
      simp

/-- C8 witness: a no-end-date submission equals its single-day counterpart,
and a concrete rejection (unparsable date) carries the invalid-date message,
not the range message, on the end-date field. -/
theorem absent_end_date_defaults_to_start_witness :
    handle_submit cfgW envOkW dbW { inpBadDateW with date_end := none } =
      handle_submit cfgW envOkW dbW { inpBadDateW with date_end := some inpBadDateW.date } ∧
    dictGet? [("date_end_b", "Invalid date(s).")] "date_end_b" ≠
      some "End Date must be on or after Start Date." :=
  ⟨(absent_end_date_defaults_to_start cfgW envOkW dbW inpBadDateW).1,
    (absent_end_date_defaults_to_start cfgW envOkW dbW inpBadDateW).2
      [("date_end_b", "Invalid date(s).")] (by decide)⟩

end PTO
